import Mathlib

/-!
Shallow embedding of the libriff RIFF-container reader (src/riff.c, with
`RIFF_64BIT_FILESIZE_SUPPORT` enabled, so `riff_ufs_t` is `uint64_t`).

Modelling conventions:
* Byte values and positions are `Nat`.  All arithmetic in the C code is on
  `uint64_t` (`riff_ufs_t`); we use plain `Nat` arithmetic, which agrees with
  the machine arithmetic as long as the involved quantities stay below 2^64
  (they are file offsets and sizes read from ≤ 2^64-byte sources).  The one
  subtraction the C code performs, in `stack_pop` and `riff_readInChunk`,
  is applied only where the navigator invariants rule out underflow.
* The pluggable byte source (`fp_read`/`fp_seek`) is a `ByteSource`:
  `byteAt p` is the byte delivered at absolute position `p`, and
  `readCount p n` is the number of bytes a read of `n` bytes issued at
  position `p` actually yields.  Every call site of `fp_read` in riff.c
  reads at the stream position, which the navigator keeps equal to
  `rh->pos` (the memory adapter reads at `rh->pos` by definition of
  `read_mem`; the file adapter's OS offset is kept in sync by
  `fp_seek(rh->pos)` calls and full reads).  `fp_seek` never fails and has
  no observable effect beyond that synchronisation, so it needs no model
  state.
* The level stack `ls` (a growable array with `ls_level` live entries, top
  at index `ls_level - 1`) is a `List` whose head is the top entry;
  `ls_level` is its length.  Capacity management (`ls_size`,
  `RIFF_LEVEL_ALLOC`, doubling) only affects allocation, not the contents,
  and is not modelled.
* Fallible-looking C constructs: a NULL `riff_handle` is modelled at the
  entry-point wrappers (`entry_...`) by an `Option riff_handle` argument;
  `none` as a *result* of such a wrapper marks a NULL dereference (the C
  code crashing), `some code` the returned error code.
* `while` loops (`riff_amountOfChunksInLevel...`, `riff_levelValidate`,
  `riff_recursiveLevelValidate`) are embedded with an explicit fuel
  parameter; `none` marks fuel exhaustion.  Each successful
  `riff_seekNextChunk` moves `c_pos_start` forward by at least 8 while it
  stays below the fixed list end, so `cl_size + 2` fuel strictly exceeds
  the number of iterations the C loop can perform.
-/

/-- Error codes of riff.h.  The C functions return `int`, hence `Int`. -/
def RIFF_ERROR_NONE : Int := 0
def RIFF_ERROR_EOC : Int := 1
def RIFF_ERROR_EOCL : Int := 2
def RIFF_ERROR_EXDAT : Int := 3
def RIFF_ERROR_CRITICAL : Int := 4
def RIFF_ERROR_ILLID : Int := 4
def RIFF_ERROR_ICSIZE : Int := 5
def RIFF_ERROR_EOF : Int := 6
def RIFF_ERROR_ACCESS : Int := 7
def RIFF_ERROR_INVALID_HANDLE : Int := 8
def RIFF_ERROR_MAX : Int := 8

/-- RIFF_CHUNK_DATA_OFFSET of riff.h. -/
def RIFF_CHUNK_DATA_OFFSET : Nat := 8
/-- RIFF_HEADER_SIZE of riff.h. -/
def RIFF_HEADER_SIZE : Nat := 12

/-- FourCC byte strings used by riff.c ("RIFF", "LIST", "BW64", "ds64"). -/
def RIFF_ID : List Nat := [0x52, 0x49, 0x46, 0x46]
def LIST_ID : List Nat := [0x4C, 0x49, 0x53, 0x54]
def BW64_ID : List Nat := [0x42, 0x57, 0x36, 0x34]
def DS64_ID : List Nat := [0x64, 0x73, 0x36, 0x34]

/-- `struct riff_levelStackEntry` (riff.h): the saved enclosing-list frame. -/
structure riff_levelStackEntry where
  cl_pos_start : Nat
  cl_id : List Nat
  cl_size : Nat
  cl_type : List Nat
deriving DecidableEq, Repr

/-- `struct riff_handle` (riff.h), restricted to the scalar state the parser
mutates.  `fh`, the function pointers and the stack capacity are not part of
the navigated state (the byte source is passed separately as `ByteSource`).
`ls_level` is `ls.length`. -/
structure riff_handle where
  size : Nat := 0
  pos : Nat := 0
  cl_id : List Nat := [0, 0, 0, 0]
  cl_size : Nat := 0
  cl_type : List Nat := [0, 0, 0, 0]
  cl_pos_start : Nat := 0
  c_pos_start : Nat := 0
  c_pos : Nat := 0
  c_id : List Nat := [0, 0, 0, 0]
  c_size : Nat := 0
  pad : Nat := 0
  ls : List riff_levelStackEntry := []
deriving DecidableEq, Repr

/-- `ls_level` of the C handle: number of live stack entries. -/
def riff_handle.ls_level (rh : riff_handle) : Nat := rh.ls.length

/-- A byte source (the `fp_read`/`fp_seek` seam).  `byteAt p` is the byte at
absolute position `p`; `readCount p n` the count a read of `n` bytes at
position `p` returns. -/
structure ByteSource where
  byteAt : Nat → Nat
  readCount : Nat → Nat → Nat

/-- The bytes delivered by a read of `n` bytes at position `p`. -/
def readBytes (src : ByteSource) (p n : Nat) : List Nat :=
  (List.range n).map fun i => src.byteAt (p + i)

/-- `read_mem` (riff.c): `memcpy(ptr, fh + rh->pos, size); return size;` —
it copies unconditionally and always reports the full requested count; the
length passed to `riff_open_mem` is stored only in `rh->size` and never
consulted by `read_mem`. -/
def memSource (m : Nat → Nat) : ByteSource := ⟨m, fun _ n => n⟩

/-- `read_file` via `fread`: at position `p` of an `len`-byte file, a read
of `n` bytes yields `min n (len - p)` bytes. -/
def fileSource (m : Nat → Nat) (len : Nat) : ByteSource :=
  ⟨m, fun p n => min n (len - p)⟩

/-- Bytes of a concrete in-memory file given as a list. -/
def memBytes (l : List Nat) : Nat → Nat := fun i => l.getD i 0

/-- `convUInt32LE` (riff.c): little-endian 32-bit decode of 4 bytes. -/
def convUInt32LE (c : List Nat) : Nat :=
  c.getD 0 0 ||| (c.getD 1 0 <<< 8) ||| (c.getD 2 0 <<< 16) ||| (c.getD 3 0 <<< 24)

/-- The FourCC validation loop of `riff_readChunkHeader` /
`riff_seekLevelSub`: all 4 bytes must be printable ASCII (0x20..0x7e).
(`c_id` is indexed 0..3; a byte ≥ 0x80 is negative as C `char`
and fails the `< 0x20` test, just as it fails `≤ 0x7e` here.) -/
def validFourCC (id : List Nat) : Bool :=
  (List.range 4).all fun i => 0x20 ≤ id.getD i 0 && id.getD i 0 ≤ 0x7e

/-- The part of `riff_readChunkHeader` that runs once the 8 header bytes
were fully read (everything after the `n != 8` early return). -/
def riff_readChunkHeaderAfterRead (src : ByteSource) (rh0 : riff_handle) :
    Int × riff_handle :=
  let buf := readBytes src rh0.pos 8
  let csize := convUInt32LE (buf.drop 4)
  let rh : riff_handle :=
    { rh0 with
      c_pos_start := rh0.pos
      pos := rh0.pos + 8
      c_id := buf.take 4
      c_size := csize
      pad := csize % 2   -- pad byte present if size is odd
      c_pos := 0 }
  if ¬ validFourCC rh.c_id then (RIFF_ERROR_ILLID, rh)
  else
    -- check if chunk fits into current list level and file
    let cposend := rh.c_pos_start + RIFF_CHUNK_DATA_OFFSET + rh.c_size + rh.pad
    let listend := rh.cl_pos_start + RIFF_CHUNK_DATA_OFFSET + rh.cl_size
    if listend < cposend then (RIFF_ERROR_ICSIZE, rh)
    else if 0 < rh.size ∧ rh.size < cposend then (RIFF_ERROR_EOF, rh)
    else (RIFF_ERROR_NONE, rh)

/-- `riff_readChunkHeader` (riff.c).  On a short read (`n != 8`) it returns
`RIFF_ERROR_EOF` with the handle untouched (`fp_read` does not update
`rh->pos`; the position fields are only adjusted afterwards). -/
def riff_readChunkHeader (src : ByteSource) (rh : riff_handle) :
    Int × riff_handle :=
  if src.readCount rh.pos 8 ≠ 8 then (RIFF_ERROR_EOF, rh)
  else riff_readChunkHeaderAfterRead src rh

/-- `stack_pop` (riff.c).  With an empty stack (`ls_level <= 0`) it is a
no-op.  Otherwise the current list frame becomes the current chunk again,
the stack top becomes the current list frame, `pad` is recomputed from the
restored size and `c_pos` from `pos`. -/
def stack_pop (rh : riff_handle) : riff_handle :=
  match rh.ls with
  | [] => rh
  | ls :: rest =>
    { rh with
      c_id := rh.cl_id
      c_size := rh.cl_size
      c_pos_start := rh.cl_pos_start
      cl_id := ls.cl_id
      cl_size := ls.cl_size
      cl_type := ls.cl_type
      cl_pos_start := ls.cl_pos_start
      pad := rh.cl_size % 2
      c_pos := rh.pos - rh.cl_pos_start - RIFF_CHUNK_DATA_OFFSET
      ls := rest }

/-- `stack_push` (riff.c): save the current list frame on the stack and
promote the current chunk (with the freshly read sub-`type`) to be the
current list frame.  (The capacity-doubling reallocation only moves the
entries and is not part of the contents model.) -/
def stack_push (rh : riff_handle) (type : List Nat) : riff_handle :=
  { rh with
    ls := ⟨rh.cl_pos_start, rh.cl_id, rh.cl_size, rh.cl_type⟩ :: rh.ls
    cl_id := rh.c_id
    cl_size := rh.c_size
    cl_type := type
    cl_pos_start := rh.c_pos_start }

/-- `riff_readInChunk` (riff.c): clamp the requested size to
`c_size - c_pos`, read, and advance `pos` and `c_pos` by the count the
source reported.  Result: (bytes written to `to`, return value `n`, new
handle). -/
def riff_readInChunk (src : ByteSource) (rh : riff_handle) (sz : Nat) :
    List Nat × Nat × riff_handle :=
  let left := rh.c_size - rh.c_pos
  let sz := if left < sz then left else sz
  let n := src.readCount rh.pos sz
  (readBytes src rh.pos n, n,
    { rh with pos := rh.pos + n, c_pos := rh.c_pos + n })

/-- `riff_seekInChunk` (riff.c).  `c_pos` is unsigned, so the C test
`c_pos < 0 || c_pos > rh->c_size` reduces to the upper bound. -/
def riff_seekInChunk (rh : riff_handle) (k : Nat) : Int × riff_handle :=
  if rh.c_size < k then (RIFF_ERROR_EOC, rh)
  else (RIFF_ERROR_NONE,
    { rh with pos := rh.c_pos_start + RIFF_CHUNK_DATA_OFFSET + k, c_pos := k })

/-- `riff_seekNextChunk` (riff.c). -/
def riff_seekNextChunk (src : ByteSource) (rh : riff_handle) :
    Int × riff_handle :=
  let posnew := rh.c_pos_start + RIFF_CHUNK_DATA_OFFSET + rh.c_size + rh.pad
  let listend := rh.cl_pos_start + RIFF_CHUNK_DATA_OFFSET + rh.cl_size
  if listend < posnew + RIFF_CHUNK_DATA_OFFSET then
    if posnew < listend then (RIFF_ERROR_EXDAT, rh)
    else (RIFF_ERROR_EOCL, rh)
  else
    riff_readChunkHeader src { rh with pos := posnew, c_pos := 0 }

/-- `riff_seekChunkStart` (riff.c). -/
def riff_seekChunkStart (rh : riff_handle) : Int × riff_handle :=
  (RIFF_ERROR_NONE,
    { rh with pos := rh.c_pos_start + RIFF_CHUNK_DATA_OFFSET, c_pos := 0 })

/-- `riff_seekLevelStart` (riff.c): seek to `cl_pos_start + 8 + 4` (just
past the list type) and read the first chunk header there. -/
def riff_seekLevelStart (src : ByteSource) (rh : riff_handle) :
    Int × riff_handle :=
  riff_readChunkHeader src
    { rh with pos := rh.cl_pos_start + RIFF_CHUNK_DATA_OFFSET + 4, c_pos := 0 }

/-- `riff_seekLevelSub` (riff.c), with `RIFF_64BIT_FILESIZE_SUPPORT` (so
"BW64" is accepted beside "LIST" and "RIFF").  A short read of the 4 type
bytes leaves the zero-initialised tail of `type[5]` in place, which then
fails the printability check. -/
def riff_seekLevelSub (src : ByteSource) (rh : riff_handle) :
    Int × riff_handle :=
  if ¬ (rh.c_id = LIST_ID ∨ rh.c_id = RIFF_ID ∨ rh.c_id = BW64_ID) then
    (RIFF_ERROR_ILLID, rh)
  else if rh.c_size < 4 then (RIFF_ERROR_ICSIZE, rh)
  else
    -- seek to chunk start if not there, required to read the type ID
    let rh :=
      if 0 < rh.c_pos then
        { rh with pos := rh.c_pos_start + RIFF_CHUNK_DATA_OFFSET, c_pos := 0 }
      else rh
    let k := src.readCount rh.pos 4
    let type := readBytes src rh.pos k ++ List.replicate (4 - k) 0
    let rh := { rh with pos := rh.pos + 4 }
    if ¬ validFourCC type then (RIFF_ERROR_ILLID, rh)
    else riff_readChunkHeader src (stack_push rh type)

/-- `riff_levelParent` (riff.c): at depth 0 return `-1` (no macro exists
for that value) without touching the handle, otherwise pop. -/
def riff_levelParent (rh : riff_handle) : Int × riff_handle :=
  if rh.ls.length = 0 then (-1, rh)
  else (RIFF_ERROR_NONE, stack_pop rh)

/-- The `while(rh->ls_level > 0) stack_pop(rh);` loop of `riff_rewind`:
each iteration removes exactly one stack entry, so it runs `ls.length`
times. -/
def popAllN : Nat → riff_handle → riff_handle
  | 0, rh => rh
  | n + 1, rh => popAllN n (stack_pop rh)

/-- `riff_rewind` (riff.c): pop everything, then seek the level start. -/
def riff_rewind (src : ByteSource) (rh : riff_handle) : Int × riff_handle :=
  riff_seekLevelStart src (popAllN rh.ls.length rh)

/-- The trailing file-size cross-check of `riff_readHeader`. -/
def riff_headerSizeCheck (rh : riff_handle) : Int :=
  if rh.size ≠ 0 ∧ rh.size ≠ rh.cl_size + RIFF_CHUNK_DATA_OFFSET then
    if rh.cl_size + RIFF_CHUNK_DATA_OFFSET ≤ rh.size then RIFF_ERROR_EXDAT
    else RIFF_ERROR_EOF
  else RIFF_ERROR_NONE

/-- `riff_readHeader` (riff.c), with `RIFF_64BIT_FILESIZE_SUPPORT` (the
`ds64` override compiled in).  The `fp_read == NULL` check concerns only
unopened handles and is handled at the entry-point layer. -/
def riff_readHeader (src : ByteSource) (rh0 : riff_handle) :
    Int × riff_handle :=
  let n := src.readCount rh0.pos RIFF_HEADER_SIZE
  let rh : riff_handle := { rh0 with pos := rh0.pos + n }
  if n ≠ RIFF_HEADER_SIZE then (RIFF_ERROR_EOF, rh)
  else
    let buf := readBytes src rh0.pos RIFF_HEADER_SIZE
    let rh : riff_handle :=
      { rh with
        cl_id := buf.take 4
        cl_size := convUInt32LE ((buf.drop 4).take 4)
        cl_type := (buf.drop 8).take 4 }
    if rh.cl_id ≠ RIFF_ID ∧ rh.cl_id ≠ BW64_ID then (RIFF_ERROR_ILLID, rh)
    else
      match riff_readChunkHeader src rh with
      | (r, rh) =>
        if r ≠ RIFF_ERROR_NONE then (r, rh)
        else if rh.cl_size = 0xFFFFFFFF ∧ rh.c_id = DS64_ID then
          -- 64-bit sized file: read low and high 32-bit words from ds64
          match riff_readInChunk src rh 8 with
          | (b8, k, rh) =>
            if k ≠ 8 then (RIFF_ERROR_ICSIZE, rh)
            else
              let rh :=
                { rh with
                  cl_size :=
                    (convUInt32LE (b8.drop 4) <<< 32) ||| convUInt32LE (b8.take 4) }
              (riff_headerSizeCheck rh, rh)
        else (riff_headerSizeCheck rh, rh)

/-- `riff_open_mem` (riff.c): install the memory source, record the given
size, set `cl_pos_start = 0` and read the header.  The fresh handle comes
from `riff_handleAllocate` (`calloc`: all fields zero). -/
def riff_open_mem (m : Nat → Nat) (s : Nat) : Int × riff_handle :=
  riff_readHeader (memSource m) { size := s, cl_pos_start := 0 }

/-- The `while(1)` loop body of `riff_amountOfChunksInLevel`: count the
current chunk, step; `EOCL` ends the walk with the count, `NONE` continues,
anything else yields `-1`.  Fuel-indexed; `none` = fuel ran out. -/
def countLoop (src : ByteSource) : Nat → riff_handle → Int →
    Option (Int × riff_handle)
  | 0, _, _ => none
  | fuel + 1, rh, counter =>
    let counter := counter + 1
    match riff_seekNextChunk src rh with
    | (r, rh') =>
      if r = RIFF_ERROR_NONE then countLoop src fuel rh' counter
      else if r = RIFF_ERROR_EOCL then some (counter, rh')
      else some (-1, rh')

/-- `riff_amountOfChunksInLevel` (riff.c).  `(riff_sfs_t)-1` on a failed
`riff_seekLevelStart`. -/
def riff_amountOfChunksInLevel (src : ByteSource) (rh : riff_handle) :
    Option (Int × riff_handle) :=
  match riff_seekLevelStart src rh with
  | (r, rh') =>
    if r ≠ RIFF_ERROR_NONE then some (-1, rh')
    else countLoop src (rh'.cl_size + 2) rh' 0

/-- Loop body of `riff_amountOfChunksInLevelWithID`: only chunks whose id
matches are counted (`memcmp(rh->c_id, id, 4)`). -/
def countLoopWithID (src : ByteSource) (id : List Nat) :
    Nat → riff_handle → Int → Option (Int × riff_handle)
  | 0, _, _ => none
  | fuel + 1, rh, counter =>
    let counter := if rh.c_id = id then counter + 1 else counter
    match riff_seekNextChunk src rh with
    | (r, rh') =>
      if r = RIFF_ERROR_NONE then countLoopWithID src id fuel rh' counter
      else if r = RIFF_ERROR_EOCL then some (counter, rh')
      else some (-1, rh')

/-- `riff_amountOfChunksInLevelWithID` (riff.c). -/
def riff_amountOfChunksInLevelWithID (src : ByteSource) (rh : riff_handle)
    (id : List Nat) : Option (Int × riff_handle) :=
  match riff_seekLevelStart src rh with
  | (r, rh') =>
    if r ≠ RIFF_ERROR_NONE then some (-1, rh')
    else countLoopWithID src id (rh'.cl_size + 2) rh' 0

/-- The `while(1)` loop of `riff_levelValidate`. -/
def validateLoop (src : ByteSource) : Nat → riff_handle →
    Option (Int × riff_handle)
  | 0, _ => none
  | fuel + 1, rh =>
    match riff_seekNextChunk src rh with
    | (r, rh') =>
      if r = RIFF_ERROR_NONE then validateLoop src fuel rh'
      else if r = RIFF_ERROR_EOCL then some (RIFF_ERROR_NONE, rh')
      else some (r, rh')

/-- `riff_levelValidate` (riff.c). -/
def riff_levelValidate (src : ByteSource) (rh : riff_handle) :
    Option (Int × riff_handle) :=
  match riff_seekLevelStart src rh with
  | (r, rh') =>
    if r ≠ RIFF_ERROR_NONE then some (r, rh')
    else validateLoop src (rh'.cl_size + 2) rh'

/-- `riff_recursiveLevelValidate` (riff.c): walk the level; on `EOCL`
return `riff_levelParent`'s result; descend into RIFF/LIST/BW64 chunks.
The fuel bounds both loop steps and recursion depth. -/
def riff_recursiveLevelValidate (src : ByteSource) :
    Nat → riff_handle → Option (Int × riff_handle)
  | 0, _ => none
  | fuel + 1, rh =>
    match riff_seekNextChunk src rh with
    | (r, rh') =>
      if r ≠ RIFF_ERROR_NONE then
        if r = RIFF_ERROR_EOCL then some (riff_levelParent rh')
        else some (r, rh')
      else if rh'.c_id = LIST_ID ∨ rh'.c_id = RIFF_ID ∨ rh'.c_id = BW64_ID then
        match riff_seekLevelSub src rh' with
        | (r2, rh2) =>
          if r2 ≠ RIFF_ERROR_NONE then some (r2, rh2)
          else
            match riff_recursiveLevelValidate src fuel rh2 with
            | none => none
            | some (r3, rh3) =>
              if r3 ≠ RIFF_ERROR_NONE then some (r3, rh3)
              else riff_recursiveLevelValidate src fuel rh3
      else riff_recursiveLevelValidate src fuel rh'

/-- `riff_fileValidate` (riff.c): rewind, then recursively validate. -/
def riff_fileValidate (src : ByteSource) (rh : riff_handle) :
    Option (Int × riff_handle) :=
  match riff_rewind src rh with
  | (r, rh') =>
    if r ≠ RIFF_ERROR_NONE then some (r, rh')
    else riff_recursiveLevelValidate src (rh'.cl_size + 2) rh'

/-- The `riff_es` table (riff.c): error strings for codes 0..8 plus the
catch-all entry 9. -/
def riff_es : List String :=
  ["No error",
   "End of chunk",
   "End of chunk list",
   "Excess bytes at end of file",
   "Illegal four character id",
   "Chunk size exceeds list level or file",
   "End of RIFF file",
   "File access failed",
   "Invalid riff_handle",
   "Unknown RIFF error"]

/-- `riff_errorToString` (riff.c): codes 0..RIFF_ERROR_MAX map to their
message, everything else to `riff_es[9]`. -/
def riff_errorToString (e : Int) : String :=
  if 0 ≤ e ∧ e ≤ RIFF_ERROR_MAX then riff_es.getD e.toNat ""
  else riff_es.getD 9 ""

/-!
Entry-point wrappers.  Every C entry point listed in the spec except
`riff_readInChunk` begins with `checkValidRiffHandle(rh)`, i.e.
`if (rh == NULL) return RIFF_ERROR_INVALID_HANDLE;`.  `riff_readInChunk`
(riff.c lines 386-394) performs no such check and immediately dereferences
`rh`.  A wrapper takes `Option riff_handle` (`none` = NULL) and returns the
code the call produces; result `none` marks the NULL dereference. -/

def entry_readInChunk (src : ByteSource) (orh : Option riff_handle)
    (sz : Nat) : Option Int :=
  match orh with
  | none => none   -- no handle check in riff_readInChunk: NULL is dereferenced
  | some rh => some (Int.ofNat (riff_readInChunk src rh sz).2.1)

def entry_seekInChunk (orh : Option riff_handle) (k : Nat) : Option Int :=
  match orh with
  | none => some RIFF_ERROR_INVALID_HANDLE
  | some rh => some (riff_seekInChunk rh k).1

def entry_seekNextChunk (src : ByteSource) (orh : Option riff_handle) :
    Option Int :=
  match orh with
  | none => some RIFF_ERROR_INVALID_HANDLE
  | some rh => some (riff_seekNextChunk src rh).1

def entry_seekChunkStart (orh : Option riff_handle) : Option Int :=
  match orh with
  | none => some RIFF_ERROR_INVALID_HANDLE
  | some rh => some (riff_seekChunkStart rh).1

def entry_seekLevelStart (src : ByteSource) (orh : Option riff_handle) :
    Option Int :=
  match orh with
  | none => some RIFF_ERROR_INVALID_HANDLE
  | some rh => some (riff_seekLevelStart src rh).1

def entry_seekLevelSub (src : ByteSource) (orh : Option riff_handle) :
    Option Int :=
  match orh with
  | none => some RIFF_ERROR_INVALID_HANDLE
  | some rh => some (riff_seekLevelSub src rh).1

def entry_levelParent (orh : Option riff_handle) : Option Int :=
  match orh with
  | none => some RIFF_ERROR_INVALID_HANDLE
  | some rh => some (riff_levelParent rh).1

def entry_rewind (src : ByteSource) (orh : Option riff_handle) : Option Int :=
  match orh with
  | none => some RIFF_ERROR_INVALID_HANDLE
  | some rh => some (riff_rewind src rh).1

def entry_levelValidate (src : ByteSource) (orh : Option riff_handle) :
    Option Int :=
  match orh with
  | none => some RIFF_ERROR_INVALID_HANDLE
  | some rh => (riff_levelValidate src rh).map Prod.fst

def entry_fileValidate (src : ByteSource) (orh : Option riff_handle) :
    Option Int :=
  match orh with
  | none => some RIFF_ERROR_INVALID_HANDLE
  | some rh => (riff_fileValidate src rh).map Prod.fst

def entry_amountOfChunksInLevel (src : ByteSource)
    (orh : Option riff_handle) : Option Int :=
  match orh with
  | none => some RIFF_ERROR_INVALID_HANDLE
  | some rh => (riff_amountOfChunksInLevel src rh).map Prod.fst

def entry_amountOfChunksInLevelWithID (src : ByteSource)
    (orh : Option riff_handle) (id : List Nat) : Option Int :=
  match orh with
  | none => some RIFF_ERROR_INVALID_HANDLE
  | some rh => (riff_amountOfChunksInLevelWithID src rh id).map Prod.fst

def entry_readHeader (src : ByteSource) (orh : Option riff_handle) :
    Option Int :=
  match orh with
  | none => some RIFF_ERROR_INVALID_HANDLE
  | some rh => some (riff_readHeader src rh).1

/-!  The navigator invariants (spec §3 / §8). -/

/-- The position invariants of the claim: `pos = c_pos_start + 8 + c_pos`,
`0 ≤ c_pos ≤ c_size` (the lower bound is vacuous on `Nat`), and
`pad = c_size mod 2`. -/
def posInv (rh : riff_handle) : Prop :=
  rh.pos = rh.c_pos_start + RIFF_CHUNK_DATA_OFFSET + rh.c_pos ∧
  rh.c_pos ≤ rh.c_size ∧
  rh.pad = rh.c_size % 2

/-- A chunk starting at `ps` of declared size `sz` (with its pad byte) lies
inside the data area of the list starting at `ops` of size `osz`, past that
list's 4-byte type. -/
def fitsBelow (ps sz ops osz : Nat) : Prop :=
  ops + 12 ≤ ps ∧ ps + 8 + sz + sz % 2 ≤ ops + 8 + osz

/-- Every stack frame contains the one above it, starting from the frame
at `(ps, sz)` downward (list head = innermost saved frame). -/
def chainFits : Nat → Nat → List riff_levelStackEntry → Prop
  | _, _, [] => True
  | ps, sz, f :: rest =>
    fitsBelow ps sz f.cl_pos_start f.cl_size ∧
    chainFits f.cl_pos_start f.cl_size rest

/-- The full navigator invariant: position invariants, the current chunk
inside the current list, and the list-frame chain nested. -/
def inv (rh : riff_handle) : Prop :=
  posInv rh ∧
  fitsBelow rh.c_pos_start rh.c_size rh.cl_pos_start rh.cl_size ∧
  chainFits rh.cl_pos_start rh.cl_size rh.ls

/-- The navigator operations claim C1 quantifies over. -/
inductive RiffOp where
  | readInChunk (sz : Nat)
  | seekInChunk (k : Nat)
  | seekNextChunk
  | seekChunkStart
  | seekLevelStart
  | seekLevelSub
  | levelParent
  | rewind
deriving DecidableEq, Repr

/-- Run one navigator operation; the `Int` is the returned error code
(`riff_readInChunk` returns a byte count, not an error code: it is treated
as always succeeding, code 0). -/
def runOp (src : ByteSource) : RiffOp → riff_handle → Int × riff_handle
  | .readInChunk sz, rh => (RIFF_ERROR_NONE, (riff_readInChunk src rh sz).2.2)
  | .seekInChunk k, rh => riff_seekInChunk rh k
  | .seekNextChunk, rh => riff_seekNextChunk src rh
  | .seekChunkStart, rh => riff_seekChunkStart rh
  | .seekLevelStart, rh => riff_seekLevelStart src rh
  | .seekLevelSub, rh => riff_seekLevelSub src rh
  | .levelParent, rh => riff_levelParent rh
  | .rewind, rh => riff_rewind src rh

/-!  Helper lemmas. -/

/-- `riff_readChunkHeader` never touches the list-frame fields, the stack,
or the file size. -/
theorem readChunkHeader_frame (src : ByteSource) (rh : riff_handle) :
    (riff_readChunkHeader src rh).2.cl_id = rh.cl_id ∧
    (riff_readChunkHeader src rh).2.cl_size = rh.cl_size ∧
    (riff_readChunkHeader src rh).2.cl_type = rh.cl_type ∧
    (riff_readChunkHeader src rh).2.cl_pos_start = rh.cl_pos_start ∧
    (riff_readChunkHeader src rh).2.ls = rh.ls ∧
    (riff_readChunkHeader src rh).2.size = rh.size := by
  simp only [riff_readChunkHeader, riff_readChunkHeaderAfterRead]
  split_ifs <;> simp

/-- Explicit bytes of an 8-byte read from a memory source. -/
theorem readBytes_mem8 (m : Nat → Nat) (p : Nat) :
    readBytes (memSource m) p 8 =
      [m p, m (p+1), m (p+2), m (p+3), m (p+4), m (p+5), m (p+6), m (p+7)] := rfl

/-- Explicit bytes of a 12-byte read from a memory source. -/
theorem readBytes_mem12 (m : Nat → Nat) (p : Nat) :
    readBytes (memSource m) p 12 =
      [m p, m (p+1), m (p+2), m (p+3), m (p+4), m (p+5), m (p+6), m (p+7),
       m (p+8), m (p+9), m (p+10), m (p+11)] := rfl

/-- C10: the memory adapter's read function reports exactly the requested
count for every request (its `memcpy` is unconditional and the length given
to `riff_open_mem` is never consulted), so the short-read (`n != 8`) EOF
branch of `riff_readChunkHeader` is unreachable over a memory source. -/
theorem spec_C10_mem_read_never_short (m : Nat → Nat) :
    (∀ p n, (memSource m).readCount p n = n) ∧
    (∀ rh : riff_handle,
      riff_readChunkHeader (memSource m) rh =
        riff_readChunkHeaderAfterRead (memSource m) rh) := by
  refine ⟨fun p n => rfl, fun rh => ?_⟩
  simp [riff_readChunkHeader, memSource]

/-- C9: with an empty level stack, `riff_levelParent` changes nothing and
returns `-1`, which lies outside the error-code range `0..RIFF_ERROR_MAX`;
`riff_errorToString` maps it to the catch-all "Unknown RIFF error" string,
which differs from all nine defined messages. -/
theorem spec_C9_levelParent_at_top (rh : riff_handle) (h : rh.ls_level = 0) :
    riff_levelParent rh = (-1, rh) ∧
    ¬ (0 ≤ (-1 : Int) ∧ (-1 : Int) ≤ RIFF_ERROR_MAX) ∧
    riff_errorToString (-1) = "Unknown RIFF error" ∧
    (∀ i : Fin 9, riff_errorToString (-1) ≠ riff_es.getD i "") := by
  refine ⟨?_, by decide, by decide, by decide⟩
  simp only [riff_handle.ls_level] at h
  simp [riff_levelParent, h]

theorem spec_C9_witness :
    ({} : riff_handle).ls_level = 0 ∧
    (riff_levelParent {} = (-1, {}) ∧
     ¬ (0 ≤ (-1 : Int) ∧ (-1 : Int) ≤ RIFF_ERROR_MAX) ∧
     riff_errorToString (-1) = "Unknown RIFF error" ∧
     (∀ i : Fin 9, riff_errorToString (-1) ≠ riff_es.getD i "")) :=
  ⟨rfl, spec_C9_levelParent_at_top {} rfl⟩

/-- C8 counterexample: `riff_readInChunk` performs no handle check (riff.c
lines 386-394 have no `checkValidRiffHandle`), so a NULL handle is
dereferenced (`none`) instead of producing `RIFF_ERROR_INVALID_HANDLE`. -/
theorem spec_C8_cex_readInChunk_no_check :
    entry_readInChunk (memSource (memBytes [])) none 4 = none := rfl

/-- C8 amended: every core entry point of the claim's list except
`riff_readInChunk` starts with `checkValidRiffHandle` and returns
`RIFF_ERROR_INVALID_HANDLE` on a NULL handle; `riff_readInChunk` has no
check and dereferences the NULL handle. -/
theorem spec_C8_null_handle (src : ByteSource) (sz k : Nat) (id : List Nat) :
    entry_seekInChunk none k = some RIFF_ERROR_INVALID_HANDLE ∧
    entry_seekNextChunk src none = some RIFF_ERROR_INVALID_HANDLE ∧
    entry_seekChunkStart none = some RIFF_ERROR_INVALID_HANDLE ∧
    entry_seekLevelStart src none = some RIFF_ERROR_INVALID_HANDLE ∧
    entry_seekLevelSub src none = some RIFF_ERROR_INVALID_HANDLE ∧
    entry_levelParent none = some RIFF_ERROR_INVALID_HANDLE ∧
    entry_rewind src none = some RIFF_ERROR_INVALID_HANDLE ∧
    entry_levelValidate src none = some RIFF_ERROR_INVALID_HANDLE ∧
    entry_fileValidate src none = some RIFF_ERROR_INVALID_HANDLE ∧
    entry_amountOfChunksInLevel src none = some RIFF_ERROR_INVALID_HANDLE ∧
    entry_amountOfChunksInLevelWithID src none id
      = some RIFF_ERROR_INVALID_HANDLE ∧
    entry_readHeader src none = some RIFF_ERROR_INVALID_HANDLE ∧
    entry_readInChunk src none sz = none :=
  ⟨rfl, rfl, rfl, rfl, rfl, rfl, rfl, rfl, rfl, rfl, rfl, rfl, rfl⟩

/-- C3: `riff_seekNextChunk` computes `next = c_pos_start + 8 + c_size +
pad` and `listend = cl_pos_start + 8 + cl_size`.  With `listend < next + 8`
it reads nothing and returns `EOCL` when exactly 0 bytes remain
(`listend = next`), `EXDAT` when 1..7 bytes remain; otherwise it seeks to
`next` and reads the chunk header found there. -/
theorem spec_C3_seekNextChunk_cases (src : ByteSource) (rh : riff_handle) :
    (rh.cl_pos_start + 8 + rh.cl_size = rh.c_pos_start + 8 + rh.c_size + rh.pad →
      riff_seekNextChunk src rh = (RIFF_ERROR_EOCL, rh)) ∧
    (rh.c_pos_start + 8 + rh.c_size + rh.pad < rh.cl_pos_start + 8 + rh.cl_size →
     rh.cl_pos_start + 8 + rh.cl_size < rh.c_pos_start + 8 + rh.c_size + rh.pad + 8 →
      riff_seekNextChunk src rh = (RIFF_ERROR_EXDAT, rh)) ∧
    (rh.c_pos_start + 8 + rh.c_size + rh.pad + 8 ≤ rh.cl_pos_start + 8 + rh.cl_size →
      riff_seekNextChunk src rh =
        riff_readChunkHeader src
          { rh with pos := rh.c_pos_start + 8 + rh.c_size + rh.pad, c_pos := 0 }) := by
  refine ⟨fun h0 => ?_, fun h1 h2 => ?_, fun h3 => ?_⟩ <;>
    simp only [riff_seekNextChunk, RIFF_CHUNK_DATA_OFFSET] <;>
    split_ifs <;> first | rfl | omega

theorem spec_C3_witness :
    ((0 : Nat) + 8 + 12 = 12 + 8 + 0 + 0) ∧
    riff_seekNextChunk (memSource (memBytes []))
        { c_pos_start := 12, cl_size := 12 } =
      (RIFF_ERROR_EOCL, { c_pos_start := 12, cl_size := 12 }) :=
  ⟨by decide,
   (spec_C3_seekNextChunk_cases (memSource (memBytes []))
     { c_pos_start := 12, cl_size := 12 }).1 (by decide)⟩

/-- C2: `riff_readInChunk` clamps the request to `c_size - c_pos` before
delegating to the byte source, returns the count the source reported,
advances `pos` and `c_pos` by exactly that amount, and every returned byte
comes from a position strictly before the pad byte's position
`c_pos_start + 8 + c_size`. -/
theorem spec_C2_readInChunk (src : ByteSource) (rh : riff_handle) (sz : Nat)
    (hsrc : ∀ p n, src.readCount p n ≤ n)
    (h1 : rh.pos = rh.c_pos_start + 8 + rh.c_pos)
    (h2 : rh.c_pos ≤ rh.c_size) :
    (riff_readInChunk src rh sz).2.1 ≤ rh.c_size - rh.c_pos ∧
    (riff_readInChunk src rh sz).2.2.pos
      = rh.pos + (riff_readInChunk src rh sz).2.1 ∧
    (riff_readInChunk src rh sz).2.2.c_pos
      = rh.c_pos + (riff_readInChunk src rh sz).2.1 ∧
    (riff_readInChunk src rh sz).1
      = readBytes src rh.pos (riff_readInChunk src rh sz).2.1 ∧
    (riff_readInChunk src rh sz).1.length = (riff_readInChunk src rh sz).2.1 ∧
    rh.pos + (riff_readInChunk src rh sz).2.1 ≤ rh.c_pos_start + 8 + rh.c_size := by
  have hn : src.readCount rh.pos
      (if rh.c_size - rh.c_pos < sz then rh.c_size - rh.c_pos else sz)
      ≤ rh.c_size - rh.c_pos := by
    split_ifs with h
    · exact hsrc _ _
    · exact le_trans (hsrc _ _) (by omega)
  have hn2 : (riff_readInChunk src rh sz).2.1 ≤ rh.c_size - rh.c_pos := hn
  refine ⟨hn2, rfl, rfl, rfl, ?_, ?_⟩
  · simp [riff_readInChunk, readBytes]
  · omega

theorem spec_C2_witness :
    (∀ p n, (memSource (memBytes [1, 2, 3, 4])).readCount p n ≤ n) ∧
    (riff_readInChunk (memSource (memBytes [1, 2, 3, 4]))
        { pos := 8, c_size := 4 } 10).2.1 ≤ 4 - 0 ∧
    (riff_readInChunk (memSource (memBytes [1, 2, 3, 4]))
        { pos := 8, c_size := 4 } 10).2.2.pos
      = 8 + (riff_readInChunk (memSource (memBytes [1, 2, 3, 4]))
        { pos := 8, c_size := 4 } 10).2.1 := by
  have h := spec_C2_readInChunk (memSource (memBytes [1, 2, 3, 4]))
    { pos := 8, c_size := 4 } 10 (fun p n => Nat.le_refl n) rfl (by decide)
  exact ⟨fun p n => Nat.le_refl n, h.1, h.2.1⟩

/-- Projection helpers for memory sources. -/
theorem memSource_readCount (m : Nat → Nat) (p n : Nat) :
    (memSource m).readCount p n = n := rfl

theorem take4_cons (a b c d : Nat) (l : List Nat) :
    (a :: b :: c :: d :: l).take 4 = [a, b, c, d] := rfl

theorem drop4_cons (a b c d : Nat) (l : List Nat) :
    (a :: b :: c :: d :: l).drop 4 = l := rfl

theorem drop8_cons (a b c d e f g h : Nat) (l : List Nat) :
    (a :: b :: c :: d :: e :: f :: g :: h :: l).drop 8 = l := rfl

/-- Fully evaluated success case of the post-read part of
`riff_readChunkHeader`. -/
theorem readChunkHeaderAfterRead_success (src : ByteSource) (rh : riff_handle)
    (hvalid : validFourCC ((readBytes src rh.pos 8).take 4) = true)
    (hfit : rh.pos + 8 + convUInt32LE ((readBytes src rh.pos 8).drop 4)
        + convUInt32LE ((readBytes src rh.pos 8).drop 4) % 2
      ≤ rh.cl_pos_start + 8 + rh.cl_size)
    (hsz : rh.size = 0 ∨
      rh.pos + 8 + convUInt32LE ((readBytes src rh.pos 8).drop 4)
        + convUInt32LE ((readBytes src rh.pos 8).drop 4) % 2 ≤ rh.size) :
    riff_readChunkHeaderAfterRead src rh =
      (RIFF_ERROR_NONE,
       { rh with
         c_pos_start := rh.pos
         pos := rh.pos + 8
         c_id := (readBytes src rh.pos 8).take 4
         c_size := convUInt32LE ((readBytes src rh.pos 8).drop 4)
         pad := convUInt32LE ((readBytes src rh.pos 8).drop 4) % 2
         c_pos := 0 }) := by
  simp only [riff_readChunkHeaderAfterRead, RIFF_CHUNK_DATA_OFFSET]
  rw [if_neg (by simp [hvalid]), if_neg (by omega),
    if_neg (by rcases hsz with h | h <;> omega)]

/-- The current-chunk fields `riff_readChunkHeaderAfterRead` always writes,
whatever its return code. -/
theorem afterRead_c_fields (src : ByteSource) (rh : riff_handle) :
    (riff_readChunkHeaderAfterRead src rh).2.c_id
      = (readBytes src rh.pos 8).take 4 ∧
    (riff_readChunkHeaderAfterRead src rh).2.cl_size = rh.cl_size := by
  simp only [riff_readChunkHeaderAfterRead]
  split_ifs <;> simp

/-- C4: on a memory source whose outer header is `BW64` with 32-bit size
field `0xFFFFFFFF` and whose first chunk is `ds64` (of size ≥ 8, fitting
the list and the declared file size), the opened handle's `cl_size` is
`low ||| (high <<< 32)` taken from the first 8 data bytes of `ds64`; with
any other outer size field or first-chunk id, `cl_size` keeps the outer
header's 32-bit value. -/
theorem spec_C4_ds64_override (m : Nat → Nat) (s : Nat) :
    (m 0 = 0x42 → m 1 = 0x57 → m 2 = 0x36 → m 3 = 0x34 →
     convUInt32LE [m 4, m 5, m 6, m 7] = 0xFFFFFFFF →
     m 12 = 0x64 → m 13 = 0x73 → m 14 = 0x36 → m 15 = 0x34 →
     8 ≤ convUInt32LE [m 16, m 17, m 18, m 19] →
     20 + convUInt32LE [m 16, m 17, m 18, m 19]
       + convUInt32LE [m 16, m 17, m 18, m 19] % 2 ≤ 8 + 0xFFFFFFFF →
     (s = 0 ∨ 20 + convUInt32LE [m 16, m 17, m 18, m 19]
       + convUInt32LE [m 16, m 17, m 18, m 19] % 2 ≤ s) →
     (riff_open_mem m s).2.cl_size =
       convUInt32LE [m 20, m 21, m 22, m 23]
         ||| (convUInt32LE [m 24, m 25, m 26, m 27] <<< 32)) ∧
    ((convUInt32LE [m 4, m 5, m 6, m 7] ≠ 0xFFFFFFFF ∨
      [m 12, m 13, m 14, m 15] ≠ DS64_ID) →
     (riff_open_mem m s).2.cl_size = convUInt32LE [m 4, m 5, m 6, m 7]) := by
  have hbuf : readBytes (memSource m) 0 12
      = [m 0, m 1, m 2, m 3, m 4, m 5, m 6, m 7, m 8, m 9, m 10, m 11] := rfl
  constructor
  · intro hm0 hm1 hm2 hm3 houter h12 h13 h14 h15 hds hfit hsz
    have hv : validFourCC [m 12, m 13, m 14, m 15] = true := by
      rw [h12, h13, h14, h15]; decide
    have hf : (12 : Nat) + 8 + convUInt32LE [m 16, m 17, m 18, m 19]
        + convUInt32LE [m 16, m 17, m 18, m 19] % 2 ≤ 0 + 8 + 4294967295 := by
      omega
    have hs2 : s = 0 ∨ (12 : Nat) + 8 + convUInt32LE [m 16, m 17, m 18, m 19]
        + convUInt32LE [m 16, m 17, m 18, m 19] % 2 ≤ s := by
      rcases hsz with h | h
      · exact Or.inl h
      · exact Or.inr (by omega)
    have hch : riff_readChunkHeader (memSource m)
        { size := s, pos := 12, cl_id := [66, 87, 54, 52], cl_size := 4294967295,
          cl_type := [m 8, m 9, m 10, m 11], cl_pos_start := 0, c_pos_start := 0,
          c_pos := 0, c_id := [0, 0, 0, 0], c_size := 0, pad := 0, ls := [] }
        = (RIFF_ERROR_NONE,
          { size := s, pos := 20, cl_id := [66, 87, 54, 52], cl_size := 4294967295,
            cl_type := [m 8, m 9, m 10, m 11], cl_pos_start := 0, c_pos_start := 12,
            c_pos := 0, c_id := [m 12, m 13, m 14, m 15],
            c_size := convUInt32LE [m 16, m 17, m 18, m 19],
            pad := convUInt32LE [m 16, m 17, m 18, m 19] % 2, ls := [] }) := by
      rw [(spec_C10_mem_read_never_short m).2,
        readChunkHeaderAfterRead_success (memSource m)
          { size := s, pos := 12, cl_id := [66, 87, 54, 52], cl_size := 4294967295,
            cl_type := [m 8, m 9, m 10, m 11], cl_pos_start := 0, c_pos_start := 0,
            c_pos := 0, c_id := [0, 0, 0, 0], c_size := 0, pad := 0, ls := [] }
          hv hf hs2]
      rfl
    have hread : riff_readInChunk (memSource m)
        { size := s, pos := 20, cl_id := [66, 87, 54, 52], cl_size := 4294967295,
          cl_type := [m 8, m 9, m 10, m 11], cl_pos_start := 0, c_pos_start := 12,
          c_pos := 0, c_id := [100, 115, 54, 52],
          c_size := convUInt32LE [m 16, m 17, m 18, m 19],
          pad := convUInt32LE [m 16, m 17, m 18, m 19] % 2, ls := [] } 8
        = ([m 20, m 21, m 22, m 23, m 24, m 25, m 26, m 27], 8,
          { size := s, pos := 28, cl_id := [66, 87, 54, 52], cl_size := 4294967295,
            cl_type := [m 8, m 9, m 10, m 11], cl_pos_start := 0, c_pos_start := 12,
            c_pos := 8, c_id := [100, 115, 54, 52],
            c_size := convUInt32LE [m 16, m 17, m 18, m 19],
            pad := convUInt32LE [m 16, m 17, m 18, m 19] % 2, ls := [] }) := by
      simp only [riff_readInChunk, memSource_readCount]
      rw [if_neg (by omega)]
      rfl
    simp only [riff_open_mem, riff_readHeader, memSource_readCount, RIFF_HEADER_SIZE,
      hbuf, take4_cons, drop4_cons, drop8_cons, hm0, hm1, hm2, hm3, houter, zero_add,
      hch, hread, h12, h13, h14, h15]
    simp [RIFF_ID, BW64_ID, DS64_ID]
    exact Nat.lor_comm _ _
  · intro hother
    simp only [riff_open_mem, riff_readHeader, memSource_readCount, RIFF_HEADER_SIZE,
      hbuf, take4_cons, drop4_cons, drop8_cons, zero_add]
    split_ifs with h1 h2 h3 h4 h5
    · exact absurd rfl h1
    · rfl
    · exact (readChunkHeader_frame (memSource m)
        { size := s, pos := 12, cl_id := [m 0, m 1, m 2, m 3],
          cl_size := convUInt32LE [m 4, m 5, m 6, m 7],
          cl_type := [m 8, m 9, m 10, m 11], cl_pos_start := 0, c_pos_start := 0,
          c_pos := 0, c_id := [0, 0, 0, 0], c_size := 0, pad := 0, ls := [] }).2.1
    · exfalso
      have e := (spec_C10_mem_read_never_short m).2
        { size := s, pos := 12, cl_id := [m 0, m 1, m 2, m 3],
          cl_size := convUInt32LE [m 4, m 5, m 6, m 7],
          cl_type := [m 8, m 9, m 10, m 11], cl_pos_start := 0, c_pos_start := 0,
          c_pos := 0, c_id := [0, 0, 0, 0], c_size := 0, pad := 0, ls := [] }
      have hcl := (readChunkHeader_frame (memSource m)
        { size := s, pos := 12, cl_id := [m 0, m 1, m 2, m 3],
          cl_size := convUInt32LE [m 4, m 5, m 6, m 7],
          cl_type := [m 8, m 9, m 10, m 11], cl_pos_start := 0, c_pos_start := 0,
          c_pos := 0, c_id := [0, 0, 0, 0], c_size := 0, pad := 0, ls := [] }).2.1
      have hcid := (afterRead_c_fields (memSource m)
        { size := s, pos := 12, cl_id := [m 0, m 1, m 2, m 3],
          cl_size := convUInt32LE [m 4, m 5, m 6, m 7],
          cl_type := [m 8, m 9, m 10, m 11], cl_pos_start := 0, c_pos_start := 0,
          c_pos := 0, c_id := [0, 0, 0, 0], c_size := 0, pad := 0, ls := [] }).1
      rw [e] at h4 hcl
      rcases hother with ho | ho
      · exact ho (hcl.symm.trans h4.1)
      · exact ho (hcid.symm.trans h4.2)
    · exfalso
      have e := (spec_C10_mem_read_never_short m).2
        { size := s, pos := 12, cl_id := [m 0, m 1, m 2, m 3],
          cl_size := convUInt32LE [m 4, m 5, m 6, m 7],
          cl_type := [m 8, m 9, m 10, m 11], cl_pos_start := 0, c_pos_start := 0,
          c_pos := 0, c_id := [0, 0, 0, 0], c_size := 0, pad := 0, ls := [] }
      have hcl := (readChunkHeader_frame (memSource m)
        { size := s, pos := 12, cl_id := [m 0, m 1, m 2, m 3],
          cl_size := convUInt32LE [m 4, m 5, m 6, m 7],
          cl_type := [m 8, m 9, m 10, m 11], cl_pos_start := 0, c_pos_start := 0,
          c_pos := 0, c_id := [0, 0, 0, 0], c_size := 0, pad := 0, ls := [] }).2.1
      have hcid := (afterRead_c_fields (memSource m)
        { size := s, pos := 12, cl_id := [m 0, m 1, m 2, m 3],
          cl_size := convUInt32LE [m 4, m 5, m 6, m 7],
          cl_type := [m 8, m 9, m 10, m 11], cl_pos_start := 0, c_pos_start := 0,
          c_pos := 0, c_id := [0, 0, 0, 0], c_size := 0, pad := 0, ls := [] }).1
      rw [e] at h4 hcl
      rcases hother with ho | ho
      · exact ho (hcl.symm.trans h4.1)
      · exact ho (hcid.symm.trans h4.2)
    · exact (readChunkHeader_frame (memSource m)
        { size := s, pos := 12, cl_id := [m 0, m 1, m 2, m 3],
          cl_size := convUInt32LE [m 4, m 5, m 6, m 7],
          cl_type := [m 8, m 9, m 10, m 11], cl_pos_start := 0, c_pos_start := 0,
          c_pos := 0, c_id := [0, 0, 0, 0], c_size := 0, pad := 0, ls := [] }).2.1

/-- The spec's BW64 end-to-end scenario: outer `BW64` with size field
`FF FF FF FF`, first child `ds64` whose first 8 data bytes are
low = `00 00 00 80`, high = `01 00 00 00`. -/
def exBW64 : List Nat :=
  [0x42, 0x57, 0x36, 0x34,  0xFF, 0xFF, 0xFF, 0xFF,  0x57, 0x41, 0x56, 0x45,
   0x64, 0x73, 0x36, 0x34,  0x08, 0x00, 0x00, 0x00,
   0x00, 0x00, 0x00, 0x80,  0x01, 0x00, 0x00, 0x00]

theorem spec_C4_witness :
    (riff_open_mem (memBytes exBW64) 0).2.cl_size = 6442450944 := by
  have h := (spec_C4_ds64_override (memBytes exBW64) 0).1 rfl rfl rfl rfl
    (by decide) rfl rfl rfl rfl (by decide) (by decide) (Or.inl rfl)
  rw [h]; decide

/-- The handle state `riff_readChunkHeaderAfterRead` produces, whatever its
return code. -/
theorem afterRead_fields (src : ByteSource) (rh : riff_handle) :
    (riff_readChunkHeaderAfterRead src rh).2
      = { rh with
          c_pos_start := rh.pos
          pos := rh.pos + 8
          c_id := (readBytes src rh.pos 8).take 4
          c_size := convUInt32LE ((readBytes src rh.pos 8).drop 4)
          pad := convUInt32LE ((readBytes src rh.pos 8).drop 4) % 2
          c_pos := 0 } := by
  simp only [riff_readChunkHeaderAfterRead]
  split_ifs <;> rfl

/-- A successful `riff_readChunkHeader` implies the 8 header bytes were
fully delivered. -/
theorem readChunkHeader_not_short (src : ByteSource) (rh : riff_handle)
    (h : (riff_readChunkHeader src rh).1 = RIFF_ERROR_NONE) :
    src.readCount rh.pos 8 = 8 := by
  by_contra hn
  rw [riff_readChunkHeader, if_pos hn] at h
  simp [RIFF_ERROR_EOF, RIFF_ERROR_NONE] at h

/-- The nested-LIST scenario of the spec: `RIFF(AVI )` containing
`LIST(hdrl)` containing `avih` with 4 data bytes. -/
def exNested : List Nat :=
  [0x52, 0x49, 0x46, 0x46,  0x1C, 0x00, 0x00, 0x00,  0x41, 0x56, 0x49, 0x20,
   0x4C, 0x49, 0x53, 0x54,  0x10, 0x00, 0x00, 0x00,  0x68, 0x64, 0x72, 0x6C,
   0x61, 0x76, 0x69, 0x68,  0x04, 0x00, 0x00, 0x00,  0x01, 0x02, 0x03, 0x04]

/-- C6 counterexample: on the nested-LIST file, `seekLevelSub` then
`levelParent` both succeed, yet `pos` and `c_pos` do not return to their
pre-call values (`levelParent` deliberately leaves the position where the
sub-level visit ended: `stack_pop` recomputes `c_pos` from `pos`). -/
theorem spec_C6_cex_roundtrip_moves_pos :
    ((riff_seekLevelSub (memSource (memBytes exNested))
        (riff_open_mem (memBytes exNested) 0).2).1 = RIFF_ERROR_NONE) ∧
    ((riff_levelParent (riff_seekLevelSub (memSource (memBytes exNested))
        (riff_open_mem (memBytes exNested) 0).2).2).1 = RIFF_ERROR_NONE) ∧
    (riff_levelParent (riff_seekLevelSub (memSource (memBytes exNested))
        (riff_open_mem (memBytes exNested) 0).2).2).2.pos
      ≠ (riff_open_mem (memBytes exNested) 0).2.pos ∧
    (riff_levelParent (riff_seekLevelSub (memSource (memBytes exNested))
        (riff_open_mem (memBytes exNested) 0).2).2).2.c_pos
      ≠ (riff_open_mem (memBytes exNested) 0).2.c_pos := by
  refine ⟨?_, ?_, ?_, ?_⟩ <;> decide

/-- C6 amended: from a state satisfying the position invariants, a
successful `seekLevelSub` followed by `levelParent` restores every scalar
of the navigator state except the position: `c_id`, `c_size`,
`c_pos_start`, `pad`, `cl_id`, `cl_size`, `cl_type`, `cl_pos_start`, `ls`
(hence `ls_level`) and `size` are back to their pre-call values, while
`pos` ends at `c_pos_start + 20` (just past the first sub-chunk's header)
and `c_pos` is recomputed to 12. -/
theorem spec_C6_subParent_roundtrip (src : ByteSource) (rh : riff_handle)
    (h1 : rh.pos = rh.c_pos_start + 8 + rh.c_pos)
    (hpad : rh.pad = rh.c_size % 2)
    (hsub : (riff_seekLevelSub src rh).1 = RIFF_ERROR_NONE) :
    (riff_levelParent (riff_seekLevelSub src rh).2).1 = RIFF_ERROR_NONE ∧
    (riff_levelParent (riff_seekLevelSub src rh).2).2.c_id = rh.c_id ∧
    (riff_levelParent (riff_seekLevelSub src rh).2).2.c_size = rh.c_size ∧
    (riff_levelParent (riff_seekLevelSub src rh).2).2.c_pos_start = rh.c_pos_start ∧
    (riff_levelParent (riff_seekLevelSub src rh).2).2.pad = rh.pad ∧
    (riff_levelParent (riff_seekLevelSub src rh).2).2.cl_id = rh.cl_id ∧
    (riff_levelParent (riff_seekLevelSub src rh).2).2.cl_size = rh.cl_size ∧
    (riff_levelParent (riff_seekLevelSub src rh).2).2.cl_type = rh.cl_type ∧
    (riff_levelParent (riff_seekLevelSub src rh).2).2.cl_pos_start = rh.cl_pos_start ∧
    (riff_levelParent (riff_seekLevelSub src rh).2).2.ls = rh.ls ∧
    (riff_levelParent (riff_seekLevelSub src rh).2).2.size = rh.size ∧
    (riff_levelParent (riff_seekLevelSub src rh).2).2.pos
      = rh.c_pos_start + 20 ∧
    (riff_levelParent (riff_seekLevelSub src rh).2).2.c_pos = 12 := by
  simp only [riff_seekLevelSub, RIFF_CHUNK_DATA_OFFSET] at hsub ⊢
  split_ifs at hsub ⊢ with hc1 hc2 hc3 hc4
  all_goals first
  | (exfalso; simp [RIFF_ERROR_ILLID, RIFF_ERROR_ICSIZE, RIFF_ERROR_NONE] at hsub;
     done)
  | skip
  · have hns := readChunkHeader_not_short _ _ hsub
    simp only [riff_readChunkHeader]
    rw [if_neg (by simp [hns])]
    rw [afterRead_fields]
    simp only [riff_levelParent, stack_pop, stack_push]
    refine ⟨?_, ?_, ?_, ?_, ?_, ?_, ?_, ?_, ?_, ?_, ?_, ?_, ?_⟩ <;>
      simp [hpad, RIFF_CHUNK_DATA_OFFSET] <;> omega
  · have hns := readChunkHeader_not_short _ _ hsub
    simp only [riff_readChunkHeader]
    rw [if_neg (by simp [hns])]
    rw [afterRead_fields]
    simp only [riff_levelParent, stack_pop, stack_push]
    refine ⟨?_, ?_, ?_, ?_, ?_, ?_, ?_, ?_, ?_, ?_, ?_, ?_, ?_⟩ <;>
      simp [hpad, RIFF_CHUNK_DATA_OFFSET] <;> omega

theorem spec_C6_witness :
    ((riff_open_mem (memBytes exNested) 0).2.pos
      = (riff_open_mem (memBytes exNested) 0).2.c_pos_start + 8
        + (riff_open_mem (memBytes exNested) 0).2.c_pos) ∧
    ((riff_levelParent (riff_seekLevelSub (memSource (memBytes exNested))
        (riff_open_mem (memBytes exNested) 0).2).2).1 = RIFF_ERROR_NONE) ∧
    (riff_levelParent (riff_seekLevelSub (memSource (memBytes exNested))
        (riff_open_mem (memBytes exNested) 0).2).2).2.c_pos = 12 := by
  have h := spec_C6_subParent_roundtrip (memSource (memBytes exNested))
    (riff_open_mem (memBytes exNested) 0).2 (by decide) (by decide) (by decide)
  exact ⟨by decide, h.1, h.2.2.2.2.2.2.2.2.2.2.2.2⟩

/-- `stack_pop` removes exactly the head of the stack. -/
theorem stack_pop_ls (rh : riff_handle) : (stack_pop rh).ls = rh.ls.tail := by
  rcases h : rh.ls with _ | ⟨f, rest⟩ <;> simp [stack_pop, h]

/-- `popAllN` removes `n` stack entries (the rewind loop pops once per
entry). -/
theorem popAllN_ls_length (n : Nat) :
    ∀ rh : riff_handle, (popAllN n rh).ls.length = rh.ls.length - n := by
  induction n with
  | zero => intro rh; simp [popAllN]
  | succ k ih =>
    intro rh
    have := ih (stack_pop rh)
    simp only [popAllN, this, stack_pop_ls, List.length_tail]
    omega

/-- C7 counterexample: right after opening the nested-LIST file, `rewind`
succeeds and leaves the stack at depth 0, but `pos` is
`cl_pos_start + 20` (past the freshly read first chunk header), not
`cl_pos_start + 12` as claimed. -/
theorem spec_C7_cex_rewind_pos :
    ((riff_rewind (memSource (memBytes exNested))
        (riff_open_mem (memBytes exNested) 0).2).1 = RIFF_ERROR_NONE) ∧
    ((riff_rewind (memSource (memBytes exNested))
        (riff_open_mem (memBytes exNested) 0).2).2.ls_level = 0) ∧
    (riff_rewind (memSource (memBytes exNested))
        (riff_open_mem (memBytes exNested) 0).2).2.pos
      ≠ (riff_rewind (memSource (memBytes exNested))
          (riff_open_mem (memBytes exNested) 0).2).2.cl_pos_start + 12 := by
  refine ⟨?_, ?_, ?_⟩ <;> decide

/-- C7 amended: after a successful `rewind`, the stack depth is 0 and the
handle sits at the first chunk of the outer level: the first chunk header
(at `cl_pos_start + 12`) has been read, so `c_pos_start = cl_pos_start +
12` and `pos = cl_pos_start + 20`. -/
theorem spec_C7_rewind (src : ByteSource) (rh : riff_handle)
    (h : (riff_rewind src rh).1 = RIFF_ERROR_NONE) :
    (riff_rewind src rh).2.ls_level = 0 ∧
    (riff_rewind src rh).2.c_pos_start
      = (riff_rewind src rh).2.cl_pos_start + 12 ∧
    (riff_rewind src rh).2.pos
      = (riff_rewind src rh).2.cl_pos_start + 20 := by
  have hnil : (popAllN rh.ls.length rh).ls = [] :=
    List.length_eq_zero.mp (by rw [popAllN_ls_length]; omega)
  simp only [riff_rewind, riff_seekLevelStart, RIFF_CHUNK_DATA_OFFSET] at h ⊢
  have hns := readChunkHeader_not_short _ _ h
  simp only [riff_readChunkHeader]
  rw [if_neg (by simp [hns])]
  rw [afterRead_fields]
  refine ⟨?_, ?_, ?_⟩ <;> simp [riff_handle.ls_level, hnil] <;> omega

theorem spec_C7_witness :
    ((riff_rewind (memSource (memBytes exNested))
        (riff_open_mem (memBytes exNested) 0).2).2.ls_level = 0) ∧
    (riff_rewind (memSource (memBytes exNested))
        (riff_open_mem (memBytes exNested) 0).2).2.pos
      = (riff_rewind (memSource (memBytes exNested))
          (riff_open_mem (memBytes exNested) 0).2).2.cl_pos_start + 20 := by
  have h := spec_C7_rewind (memSource (memBytes exNested))
    (riff_open_mem (memBytes exNested) 0).2 (by decide)
  exact ⟨h.1, h.2.2⟩

/-- The badly padded file of claim C5: `RIFF` declares size 13, its single
chunk `abcd` (size 0) ends at byte 20, so exactly 1 excess byte precedes
the list end at 21. -/
def exExcess : List Nat :=
  [0x52, 0x49, 0x46, 0x46,  0x0D, 0x00, 0x00, 0x00,  0x57, 0x41, 0x56, 0x45,
   0x61, 0x62, 0x63, 0x64,  0x00, 0x00, 0x00, 0x00]

/-- C5 counterexample: on `exExcess` the walk from the level start ends
with the non-critical `EXDAT` warning, yet `riff_amountOfChunksInLevel`
returns `-1` instead of the tally (the loop only treats `EOCL` as a normal
end; any other non-`NONE` code, `EXDAT` included, hits `return -1`). -/
theorem spec_C5_cex_exdat_returns_minus_one :
    ((riff_seekNextChunk (memSource (memBytes exExcess))
        (riff_seekLevelStart (memSource (memBytes exExcess))
          (riff_open_mem (memBytes exExcess) 0).2).2).1 = RIFF_ERROR_EXDAT) ∧
    (riff_amountOfChunksInLevel (memSource (memBytes exExcess))
        (riff_open_mem (memBytes exExcess) 0).2).map Prod.fst = some (-1) ∧
    (riff_amountOfChunksInLevelWithID (memSource (memBytes exExcess))
        (riff_open_mem (memBytes exExcess) 0).2
        [0x61, 0x62, 0x63, 0x64]).map Prod.fst = some (-1) := by
  refine ⟨?_, ?_, ?_⟩ <;> decide

/-- C5 amended: the counters walk the current level from its start,
tallying; a step that returns `EOCL` ends the walk with the tally, but a
step that returns anything else except `NONE` — the non-critical `EXDAT`
warning included — makes them return `-1`, and a failed `seekLevelStart`
also yields `-1`. -/
theorem spec_C5_counters (src : ByteSource) (rh : riff_handle)
    (id : List Nat) (fuel : Nat) (c : Int) :
    ((riff_seekNextChunk src rh).1 = RIFF_ERROR_EOCL →
      countLoop src (fuel + 1) rh c
        = some (c + 1, (riff_seekNextChunk src rh).2) ∧
      countLoopWithID src id (fuel + 1) rh c
        = some ((if rh.c_id = id then c + 1 else c),
            (riff_seekNextChunk src rh).2)) ∧
    ((riff_seekNextChunk src rh).1 ≠ RIFF_ERROR_NONE →
     (riff_seekNextChunk src rh).1 ≠ RIFF_ERROR_EOCL →
      countLoop src (fuel + 1) rh c = some (-1, (riff_seekNextChunk src rh).2) ∧
      countLoopWithID src id (fuel + 1) rh c
        = some (-1, (riff_seekNextChunk src rh).2)) ∧
    ((riff_seekLevelStart src rh).1 ≠ RIFF_ERROR_NONE →
      riff_amountOfChunksInLevel src rh
        = some (-1, (riff_seekLevelStart src rh).2) ∧
      riff_amountOfChunksInLevelWithID src rh id
        = some (-1, (riff_seekLevelStart src rh).2)) := by
  refine ⟨fun hE => ⟨?_, ?_⟩, fun hN hE => ⟨?_, ?_⟩, fun h0 => ⟨?_, ?_⟩⟩
  · simp [countLoop, hE, RIFF_ERROR_EOCL, RIFF_ERROR_NONE]
  · simp [countLoopWithID, hE, RIFF_ERROR_EOCL, RIFF_ERROR_NONE]
  · simp [countLoop, hN, hE]
  · simp [countLoopWithID, hN, hE]
  · simp [riff_amountOfChunksInLevel, h0]
  · simp [riff_amountOfChunksInLevelWithID, h0]

theorem spec_C5_witness :
    countLoop (memSource (memBytes exExcess)) 1
        (riff_seekLevelStart (memSource (memBytes exExcess))
          (riff_open_mem (memBytes exExcess) 0).2).2 0
      = some (-1,
          (riff_seekNextChunk (memSource (memBytes exExcess))
            (riff_seekLevelStart (memSource (memBytes exExcess))
              (riff_open_mem (memBytes exExcess) 0).2).2).2) ∧
    countLoopWithID (memSource (memBytes exExcess)) [0x61, 0x62, 0x63, 0x64] 1
        (riff_seekLevelStart (memSource (memBytes exExcess))
          (riff_open_mem (memBytes exExcess) 0).2).2 0
      = some (-1,
          (riff_seekNextChunk (memSource (memBytes exExcess))
            (riff_seekLevelStart (memSource (memBytes exExcess))
              (riff_open_mem (memBytes exExcess) 0).2).2).2) :=
  (spec_C5_counters (memSource (memBytes exExcess))
    (riff_seekLevelStart (memSource (memBytes exExcess))
      (riff_open_mem (memBytes exExcess) 0).2).2
    [0x61, 0x62, 0x63, 0x64] 0 0).2.1 (by decide) (by decide)

/-- `riff_readChunkHeader` returns one of `NONE`, `ILLID`, `ICSIZE`,
`EOF`. -/
theorem readChunkHeader_code_cases (src : ByteSource) (rh : riff_handle) :
    (riff_readChunkHeader src rh).1 = RIFF_ERROR_NONE ∨
    (riff_readChunkHeader src rh).1 = RIFF_ERROR_ILLID ∨
    (riff_readChunkHeader src rh).1 = RIFF_ERROR_ICSIZE ∨
    (riff_readChunkHeader src rh).1 = RIFF_ERROR_EOF := by
  simp only [riff_readChunkHeader, riff_readChunkHeaderAfterRead]
  split_ifs <;> simp

/-- A successful `riff_readChunkHeader`, issued at a position at least 12
bytes into the current list and under a nested frame chain, establishes
the full navigator invariant. -/
theorem readChunkHeader_inv (src : ByteSource) (rh : riff_handle)
    (hpos : rh.cl_pos_start + 12 ≤ rh.pos)
    (hchain : chainFits rh.cl_pos_start rh.cl_size rh.ls)
    (h : (riff_readChunkHeader src rh).1 = RIFF_ERROR_NONE) :
    inv (riff_readChunkHeader src rh).2 := by
  have hns := readChunkHeader_not_short _ _ h
  simp only [riff_readChunkHeader] at h ⊢
  rw [if_neg (by simp [hns])] at h ⊢
  rw [afterRead_fields]
  simp only [riff_readChunkHeaderAfterRead, RIFF_CHUNK_DATA_OFFSET] at h
  split_ifs at h with h1 h2 h3
  all_goals first
  | (exfalso;
     simp [RIFF_ERROR_ILLID, RIFF_ERROR_ICSIZE, RIFF_ERROR_EOF,
       RIFF_ERROR_NONE] at h;
     done)
  | skip
  refine ⟨⟨?_, ?_, ?_⟩, ⟨?_, ?_⟩, ?_⟩ <;>
    simp_all [inv, posInv, fitsBelow, RIFF_CHUNK_DATA_OFFSET] <;> omega

/-- `stack_pop` preserves the navigator invariant. -/
theorem stack_pop_inv (rh : riff_handle) (h : inv rh) : inv (stack_pop rh) := by
  rcases hls : rh.ls with _ | ⟨f, rest⟩
  · simpa [stack_pop, hls] using h
  · obtain ⟨⟨i1, i2, i3⟩, ⟨f1, f2⟩, hch⟩ := h
    rw [hls] at hch
    simp only [chainFits] at hch
    obtain ⟨⟨g1, g2⟩, hch'⟩ := hch
    simp only [stack_pop, hls]
    refine ⟨⟨?_, ?_, ?_⟩, ⟨?_, ?_⟩, ?_⟩ <;>
      simp_all [inv, posInv, fitsBelow, chainFits, RIFF_CHUNK_DATA_OFFSET] <;>
      omega

/-- The rewind pop-loop preserves the navigator invariant. -/
theorem popAllN_inv (n : Nat) :
    ∀ rh : riff_handle, inv rh → inv (popAllN n rh) := by
  induction n with
  | zero => intro rh h; exact h
  | succ k ih => intro rh h; exact ih (stack_pop rh) (stack_pop_inv rh h)

/-- If `riff_readChunkHeader` returned a non-critical code, it was
`RIFF_ERROR_NONE`, and under the positioning hypotheses the invariant
holds afterwards. -/
theorem readChunkHeader_inv_of_code (src : ByteSource) (rh : riff_handle)
    (hpos : rh.cl_pos_start + 12 ≤ rh.pos)
    (hchain : chainFits rh.cl_pos_start rh.cl_size rh.ls)
    (hc : 0 ≤ (riff_readChunkHeader src rh).1 ∧
      (riff_readChunkHeader src rh).1 < RIFF_ERROR_CRITICAL) :
    inv (riff_readChunkHeader src rh).2 := by
  rcases readChunkHeader_code_cases src rh with h | h | h | h
  · exact readChunkHeader_inv src rh hpos hchain h
  all_goals (rw [h] at hc; simp [RIFF_ERROR_ILLID, RIFF_ERROR_ICSIZE, RIFF_ERROR_EOF, RIFF_ERROR_CRITICAL] at hc)

/-- C1: the claimed position invariants (`pos = c_pos_start + 8 + c_pos`,
`0 ≤ c_pos ≤ c_size`, `pad = c_size mod 2`) are the `posInv` part of the
navigator invariant `inv`, which additionally nests the current chunk in
the current list and the list frames in each other.  Every reachable state
satisfies `inv` inductively: in any state satisfying it the position
invariants hold, and each of the eight operations, whenever it returns
success or a non-critical code (`EOC`, `EOCL`, `EXDAT`), leads again to a
state satisfying `inv` — hence the position invariants.  (The byte source
is only assumed to never report more bytes than requested, which both
adapters satisfy.) -/
theorem spec_C1_position_invariants (src : ByteSource)
    (hsrc : ∀ p n, src.readCount p n ≤ n) (op : RiffOp) (rh : riff_handle)
    (hinv : inv rh) :
    posInv rh ∧
    (0 ≤ (runOp src op rh).1 ∧ (runOp src op rh).1 < RIFF_ERROR_CRITICAL →
      inv (runOp src op rh).2 ∧ posInv (runOp src op rh).2) := by
  refine ⟨hinv.1, fun hc => ?_⟩
  suffices hgoal : inv (runOp src op rh).2 from ⟨hgoal, hgoal.1⟩
  obtain ⟨⟨i1, i2, i3⟩, hfits, hch⟩ := hinv
  obtain ⟨f1, f2⟩ : rh.cl_pos_start + 12 ≤ rh.c_pos_start ∧
      rh.c_pos_start + 8 + rh.c_size + rh.c_size % 2
        ≤ rh.cl_pos_start + 8 + rh.cl_size := hfits
  simp only [RIFF_CHUNK_DATA_OFFSET] at i1
  cases op with
  | readInChunk sz =>
    have hn : src.readCount rh.pos
        (if rh.c_size - rh.c_pos < sz then rh.c_size - rh.c_pos else sz)
        ≤ rh.c_size - rh.c_pos := by
      split_ifs with hh
      · exact hsrc _ _
      · exact le_trans (hsrc _ _) (by omega)
    simp only [runOp, riff_readInChunk]
    refine ⟨⟨?_, ?_, ?_⟩, ⟨?_, ?_⟩, ?_⟩ <;>
      simp_all [posInv, fitsBelow, RIFF_CHUNK_DATA_OFFSET] <;> omega
  | seekInChunk k =>
    simp only [runOp, riff_seekInChunk]
    split_ifs with hk
    · exact ⟨⟨by simpa [posInv, RIFF_CHUNK_DATA_OFFSET] using i1, i2, i3⟩,
        ⟨f1, f2⟩, hch⟩
    · refine ⟨⟨?_, ?_, ?_⟩, ⟨?_, ?_⟩, ?_⟩ <;>
        simp_all [posInv, fitsBelow, RIFF_CHUNK_DATA_OFFSET] <;> omega
  | seekChunkStart =>
    simp only [runOp, riff_seekChunkStart]
    refine ⟨⟨?_, ?_, ?_⟩, ⟨?_, ?_⟩, ?_⟩ <;>
      simp_all [posInv, fitsBelow, RIFF_CHUNK_DATA_OFFSET] <;> omega
  | seekNextChunk =>
    simp only [runOp, riff_seekNextChunk, RIFF_CHUNK_DATA_OFFSET] at hc ⊢
    split_ifs at hc ⊢ with h1 h2
    · exact ⟨⟨by simpa [posInv, RIFF_CHUNK_DATA_OFFSET] using i1, i2, i3⟩,
        ⟨f1, f2⟩, hch⟩
    · exact ⟨⟨by simpa [posInv, RIFF_CHUNK_DATA_OFFSET] using i1, i2, i3⟩,
        ⟨f1, f2⟩, hch⟩
    · exact readChunkHeader_inv_of_code src _ (by simp; omega)
        (by simpa using hch) hc
  | seekLevelStart =>
    simp only [runOp, riff_seekLevelStart, RIFF_CHUNK_DATA_OFFSET] at hc ⊢
    exact readChunkHeader_inv_of_code src _ (by simp) (by simpa using hch) hc
  | seekLevelSub =>
    simp only [runOp, riff_seekLevelSub, RIFF_CHUNK_DATA_OFFSET] at hc ⊢
    split_ifs at hc ⊢ with h1 h2 h3 h4
    all_goals first
    | (exfalso; simp [RIFF_ERROR_ILLID, RIFF_ERROR_ICSIZE, RIFF_ERROR_CRITICAL] at hc; done)
    | skip
    · exact readChunkHeader_inv_of_code src _ (by simp [stack_push])
        (by simp only [stack_push, chainFits]; exact ⟨⟨f1, f2⟩, hch⟩) hc
    · exact readChunkHeader_inv_of_code src _ (by simp [stack_push]; omega)
        (by simp only [stack_push, chainFits]; exact ⟨⟨f1, f2⟩, hch⟩) hc
  | levelParent =>
    simp only [runOp, riff_levelParent] at hc ⊢
    split_ifs at hc ⊢ with h0
    · exact ⟨⟨by simpa [posInv, RIFF_CHUNK_DATA_OFFSET] using i1, i2, i3⟩,
        ⟨f1, f2⟩, hch⟩
    · exact stack_pop_inv rh
        ⟨⟨by simpa [posInv, RIFF_CHUNK_DATA_OFFSET] using i1, i2, i3⟩,
          ⟨f1, f2⟩, hch⟩
  | rewind =>
    simp only [runOp, riff_rewind, riff_seekLevelStart,
      RIFF_CHUNK_DATA_OFFSET] at hc ⊢
    have hP := popAllN_inv rh.ls.length rh
      ⟨⟨by simpa [posInv, RIFF_CHUNK_DATA_OFFSET] using i1, i2, i3⟩,
        ⟨f1, f2⟩, hch⟩
    exact readChunkHeader_inv_of_code src _ (by simp) (by simpa using hP.2.2) hc

theorem spec_C1_witness :
    inv ({ pos := 20, c_pos_start := 12, c_size := 16, cl_size := 28 } :
      riff_handle) ∧
    posInv (runOp (memSource (memBytes exNested)) RiffOp.seekChunkStart
      { pos := 20, c_pos_start := 12, c_size := 16, cl_size := 28 }).2 := by
  have hinv :
      inv ({ pos := 20, c_pos_start := 12, c_size := 16, cl_size := 28 } :
        riff_handle) :=
    ⟨⟨rfl, by decide, rfl⟩, ⟨by decide, by decide⟩, trivial⟩
  have h := spec_C1_position_invariants (memSource (memBytes exNested))
    (fun _ _ => Nat.le_refl _) RiffOp.seekChunkStart _ hinv
  exact ⟨hinv, (h.2 ⟨by decide, by decide⟩).2⟩
